import Mathlib

/-!
Shallow embedding of the evasive polling core of the `tgmonitor` repository
(`modules/instagram_api.py` and `modules/monitor_service.py`), together with
theorems settling the specification claims about it.

The embedding models:
  * the per-account device-identity generator `_build_device_profile`
    (including a concrete SHA-256, since the seed is `hashlib.sha256`),
  * the `fetch_profile` retry/rotation state machine,
  * `download_profile_picture`,
  * the monitor service's recovery handler and task registry.
-/

namespace TgMonitor

/-! ### SHA-256 (model of `hashlib.sha256(...).hexdigest()`)

A byte string is a `List Nat` with every entry `< 256`; 32-bit words are
`Nat` reduced mod `2 ^ 32` after every arithmetic step. -/

def w32 (n : Nat) : Nat := n % 4294967296

def rotr32 (n x : Nat) : Nat := w32 (Nat.lor (x >>> n) (x <<< (32 - n)))

def not32 (x : Nat) : Nat := Nat.xor x 4294967295

def sha256Ch (x y z : Nat) : Nat := Nat.xor (Nat.land x y) (Nat.land (not32 x) z)

def sha256Maj (x y z : Nat) : Nat :=
  Nat.xor (Nat.xor (Nat.land x y) (Nat.land x z)) (Nat.land y z)

def bigSigma0 (x : Nat) : Nat := Nat.xor (rotr32 2 x) (Nat.xor (rotr32 13 x) (rotr32 22 x))

def bigSigma1 (x : Nat) : Nat := Nat.xor (rotr32 6 x) (Nat.xor (rotr32 11 x) (rotr32 25 x))

def smallSigma0 (x : Nat) : Nat := Nat.xor (rotr32 7 x) (Nat.xor (rotr32 18 x) (x >>> 3))

def smallSigma1 (x : Nat) : Nat := Nat.xor (rotr32 17 x) (Nat.xor (rotr32 19 x) (x >>> 10))

/-- The 64 SHA-256 round constants (FIPS 180-4), written in decimal. -/
def sha256K : List Nat :=
  [1116352408, 1899447441, 3049323471, 3921009573, 961987163,
   1508970993, 2453635748, 2870763221, 3624381080, 310598401,
   607225278, 1426881987, 1925078388, 2162078206, 2614888103,
   3248222580, 3835390401, 4022224774, 264347078, 604807628,
   770255983, 1249150122, 1555081692, 1996064986, 2554220882,
   2821834349, 2952996808, 3210313671, 3336571891, 3584528711,
   113926993, 338241895, 666307205, 773529912, 1294757372,
   1396182291, 1695183700, 1986661051, 2177026350, 2456956037,
   2730485921, 2820302411, 3259730800, 3345764771, 3516065817,
   3600352804, 4094571909, 275423344, 430227734, 506948616,
   659060556, 883997877, 958139571, 1322822218, 1537002063,
   1747873779, 1955562222, 2024104815, 2227730452, 2361852424,
   2428436474, 2756734187, 3204031479, 3329325298]

/-- The SHA-256 initial hash state (FIPS 180-4), written in decimal. -/
def sha256H0 : List Nat :=
  [1779033703, 3144134277, 1013904242, 2773480762,
   1359893119, 2600822924, 528734635, 1541459225]

/-- Big-endian assembly of four bytes into a 32-bit word. -/
def word32OfBytes : List Nat → Nat
  | [a, b, c, d] => a * 16777216 + b * 65536 + c * 256 + d
  | _ => 0

/-- Split a byte list into big-endian 32-bit words (fueled structural recursion). -/
def bytesToWords : Nat → List Nat → List Nat
  | 0, _ => []
  | _, [] => []
  | fuel + 1, l => word32OfBytes (l.take 4) :: bytesToWords fuel (l.drop 4)

/-- Extend a 16-word block schedule by `n` further words. -/
def extendSchedule : Nat → List Nat → List Nat
  | 0, ws => ws
  | n + 1, ws =>
      let t := ws.length
      let next := w32 (smallSigma1 (ws.getD (t - 2) 0) + ws.getD (t - 7) 0 +
        smallSigma0 (ws.getD (t - 15) 0) + ws.getD (t - 16) 0)
      extendSchedule n (ws ++ [next])

/-- One SHA-256 compression round, acting on the eight working variables. -/
def sha256Round (st : List Nat) (kw : Nat × Nat) : List Nat :=
  match st with
  | [a, b, c, d, e, f, g, h] =>
      let t1 := w32 (h + bigSigma1 e + sha256Ch e f g + kw.1 + kw.2)
      let t2 := w32 (bigSigma0 a + sha256Maj a b c)
      [w32 (t1 + t2), a, b, c, w32 (d + t1), e, f, g]
  | st => st

/-- Compress one 64-byte block into the running hash state. -/
def sha256Block (hs : List Nat) (block : List Nat) : List Nat :=
  let ws := extendSchedule 48 (bytesToWords 16 block)
  let fin := (sha256K.zip ws).foldl sha256Round hs
  (hs.zip fin).map (fun p => w32 (p.1 + p.2))

/-- Split a byte list into 64-byte chunks (fueled structural recursion). -/
def chunk64 : Nat → List Nat → List (List Nat)
  | 0, _ => []
  | _, [] => []
  | fuel + 1, l => l.take 64 :: chunk64 fuel (l.drop 64)

/-- Big-endian encoding of `n` into `k` bytes. -/
def beBytes : Nat → Nat → List Nat
  | 0, _ => []
  | k + 1, n => beBytes k (n / 256) ++ [n % 256]

/-- SHA-256 padding: append `0x80`, zeros to 56 mod 64, then the 8-byte bit length. -/
def sha256Pad (msg : List Nat) : List Nat :=
  let l := msg.length
  let zeros := (64 + 56 - (l + 1) % 64) % 64
  msg ++ 128 :: List.replicate zeros 0 ++ beBytes 8 (l * 8)

/-- The SHA-256 digest of a byte string, as eight 32-bit words. -/
def sha256Words (msg : List Nat) : List Nat :=
  let padded := sha256Pad msg
  (chunk64 padded.length padded).foldl sha256Block sha256H0

/-- Lowercase hex character for a nibble. -/
def hexChar (n : Nat) : Char :=
  if n < 10 then Char.ofNat (48 + n) else Char.ofNat (87 + n)

/-- Eight lowercase hex characters of a 32-bit word, most significant first. -/
def wordHex (x : Nat) : List Char :=
  [hexChar ((x >>> 28) % 16), hexChar ((x >>> 24) % 16), hexChar ((x >>> 20) % 16),
   hexChar ((x >>> 16) % 16), hexChar ((x >>> 12) % 16), hexChar ((x >>> 8) % 16),
   hexChar ((x >>> 4) % 16), hexChar (x % 16)]

/-- Model of `hashlib.sha256(msg).hexdigest()` as a list of 64 lowercase hex characters. -/
def sha256HexChars (msg : List Nat) : List Char :=
  ((sha256Words msg).map wordHex).flatten

/-- UTF-8 encoding of one code point (model of Python `str.encode()` per character). -/
def utf8Bytes (c : Nat) : List Nat :=
  if c < 128 then [c]
  else if c < 2048 then [192 + c / 64, 128 + c % 64]
  else if c < 65536 then [224 + c / 4096, 128 + (c / 64) % 64, 128 + c % 64]
  else [240 + c / 262144, 128 + (c / 4096) % 64, 128 + (c / 64) % 64, 128 + c % 64]

/-- Model of Python `str.encode()`: UTF-8 bytes of a string. -/
def encodeStr (s : String) : List Nat :=
  (s.data.map (fun c => utf8Bytes c.toNat)).flatten

/-! ### Device identity generator (`_build_device_profile`) -/

/-- The `USER_AGENTS` catalog of `instagram_api.py`. -/
def USER_AGENTS : List String :=
  ["Instagram 315.0.0.42.97 Android (33/13; 480dpi; 1080x2400; Xiaomi; 2201123G; lisa; qcom; en_US; 560107895)",
   "Instagram 314.0.0.37.120 Android (32/12; 420dpi; 1080x2340; samsung; SM-G998B; p3s; exynos2100; en_US; 558642214)",
   "Instagram 313.1.0.37.104 Android (31/12; 440dpi; 1080x2400; OnePlus; LE2121; OnePlus9Pro; qcom; en_US; 557512458)",
   "Instagram 312.0.0.42.109 Android (33/13; 560dpi; 1440x3200; Xiaomi; M2012K11AG; venus; qcom; en_US; 555841423)",
   "Instagram 311.0.0.41.109 Android (30/11; 480dpi; 1080x2400; OPPO; CPH2207; OP4F2F; qcom; en_US; 554147875)"]

/-- The device fingerprint produced by `_build_device_profile`. -/
structure DeviceProfile where
  device_id : String
  android_id : String
  mid : String
  user_agent : String
deriving DecidableEq, Repr

/-- Model of `str(uuid.UUID(hex=s))` for a 32-hex-character `s`: the canonical
8-4-4-4-12 dashed lowercase form. -/
def uuidOfHex (s : List Char) : List Char :=
  s.take 8 ++ '-' :: ((s.drop 8).take 4 ++ '-' :: ((s.drop 12).take 4 ++
    '-' :: ((s.drop 16).take 4 ++ '-' :: s.drop 20)))

/-- The external digest and seeded-PRNG primitives `_build_device_profile`
uses on top of the SHA-256 seed: `hashlib.md5(...).hexdigest()`,
`hashlib.sha1(...).hexdigest()`, and `random.Random(seed).randint(0, 4)`.
Each is a fixed pure function of its argument (the PRNG is freshly seeded
from the seed string and consults no global state), so the embedding takes
them as parameters; every theorem below holds for any instantiation. -/
structure DerivedOps where
  md5hex : String → String
  sha1hex : String → String
  uaIndex : String → Fin 5

/-- The derivation `_build_device_profile` performs on a cache miss:
seed is the SHA-256 hex digest of the UTF-8 bytes of the username;
`device_id = str(uuid.UUID(seed[:32]))`; the user agent is chosen by the
seeded PRNG; `android_id` is an md5 prefix and `mid` a sha1 prefix of the
device id. -/
def deriveProfile (ops : DerivedOps) (username : String) : DeviceProfile :=
  let seed := sha256HexChars (encodeStr username)
  let device_id := String.mk (uuidOfHex (seed.take 32))
  let user_agent := USER_AGENTS.getD (ops.uaIndex (String.mk seed)).val ""
  let android_id := "android-" ++ (ops.md5hex device_id).take 16
  let mid := (ops.sha1hex device_id).take 20
  ⟨device_id, android_id, mid, user_agent⟩

/-- The process-wide `_device_cache`, as an association list (most recent
insertion first, looked up by exact string key, as a Python dict). -/
abbrev DeviceCache : Type := List (String × DeviceProfile)

/-- Lookup by exact key, the way a Python dict indexes `_device_cache`. -/
def dictLookup {α : Type} : List (String × α) → String → Option α
  | [], _ => none
  | (k, v) :: rest, u => if k = u then some v else dictLookup rest u

/-- Model of `_build_device_profile(username)`: return the cached profile if the
username is already a key of `_device_cache`, otherwise derive a profile
and store it under the username. -/
def build_device_profile (ops : DerivedOps) (username : String) (cache : DeviceCache) :
    DeviceProfile × DeviceCache :=
  match dictLookup cache username with
  | some p => (p, cache)
  | none =>
      let p := deriveProfile ops username
      (p, ((username, p) :: cache : List (String × DeviceProfile)))

/-- Cache states reachable by the program: every cached entry is the
derivation of its own key. Holds for the empty cache of a fresh process and
is preserved by `build_device_profile`. -/
def CacheWF (ops : DerivedOps) (cache : DeviceCache) : Prop :=
  ∀ u p, (u, p) ∈ (cache : List (String × DeviceProfile)) → p = deriveProfile ops u

/-- A concrete instantiation of the external digest primitives, used to
evaluate the parametric theorems on explicit inputs. -/
def sampleOps : DerivedOps :=
  ⟨fun s => s, fun s => s, fun _ => ⟨0, by decide⟩⟩

/-! ### `fetch_profile` -/

/-- The `BROWSER_IMPERSONATIONS` list of curl_cffi targets, by name. -/
def BROWSER_IMPERSONATIONS : List String :=
  ["chrome110", "chrome107", "chrome104", "chrome101", "chrome100", "chrome99"]

/-- Model of Python `str.lower()` on one character (ASCII case folding,
which covers the username alphabet the endpoint accepts). -/
def lowerChar (c : Char) : Char :=
  if 65 ≤ c.toNat ∧ c.toNat ≤ 90 then Char.ofNat (c.toNat + 32) else c

/-- Model of Python `str.lower()`: lowercase every character. -/
def lowerStr (s : String) : String := String.mk (s.data.map lowerChar)

/-- The decoded JSON body of a 200 response, as far as `fetch_profile`
inspects it. -/
inductive Body where
  /-- `response.json()` raises: undecodable body. -/
  | invalid : Body
  /-- decodable, but `data.user` is absent or falsy. -/
  | noUser : Body
  /-- decodable, with a `data.user` record whose `username` field is `uname`
  (already lowercased by the code before comparison; we keep it verbatim). -/
  | user (uname : String) : Body
deriving DecidableEq, Repr

/-- What one network attempt produces: an HTTP status with a body, or a
raised transport error (timeout or any other exception in the request). -/
inductive AttemptResult where
  | ok (status : Nat) (body : Body)
  | err : AttemptResult
deriving DecidableEq, Repr

/-- Observable behaviour of one `fetch_profile` call: the returned
`(status, data)` pair plus the collaborator interactions performed. -/
structure FetchLog where
  /-- the returned pair; the payload is the decoded body on success. -/
  result : Option Nat × Option Body
  /-- how many times `session_manager.rotate_session()` was called. -/
  rotations : Nat
  /-- how many network requests were issued. -/
  attempts : Nat
  /-- the impersonation target of each attempt, in order. -/
  impersonations : List String
deriving DecidableEq, Repr

/-- The body of `fetch_profile`, with the bounded recursion made structural
on a fuel argument; `fetch_profile` below instantiates the fuel with exactly
the number of attempts the `retry_count < max_retries` guard still allows,
so the fuel-0 branch is unreachable from the wrapper. `env n` is what the
network returns for the attempt made with `retry_count = n`. -/
def fetchGo (proxyConfigured : Bool) (username : String) (env : Nat → AttemptResult) :
    Nat → Nat → Nat → FetchLog
  | 0, _, _ => ⟨(none, none), 0, 0, []⟩
  | fuel + 1, retry_count, max_retries =>
    if proxyConfigured = false then ⟨(none, none), 0, 0, []⟩
    else
      let imp := BROWSER_IMPERSONATIONS.getD (retry_count % BROWSER_IMPERSONATIONS.length) ""
      match env retry_count with
      | .ok s b =>
        if s = 200 then
          match b with
          | .user uname =>
              if lowerStr uname = lowerStr username then
                ⟨(some 200, some (.user uname)), 0, 1, [imp]⟩
              else ⟨(some 200, none), 0, 1, [imp]⟩
          | .noUser => ⟨(some 200, none), 0, 1, [imp]⟩
          | .invalid => ⟨(some 200, none), 0, 1, [imp]⟩
        else if s = 404 then ⟨(some 404, none), 0, 1, [imp]⟩
        else if s = 429 then
          if retry_count < max_retries then
            let rest := fetchGo proxyConfigured username env fuel (retry_count + 1) max_retries
            ⟨rest.result, rest.rotations + 1, rest.attempts + 1, imp :: rest.impersonations⟩
          else ⟨(some 429, none), 1, 1, [imp]⟩
        else if s = 400 ∨ s = 401 then
          if retry_count < max_retries then
            let rest := fetchGo proxyConfigured username env fuel (retry_count + 1) max_retries
            ⟨rest.result, rest.rotations + 1, rest.attempts + 1, imp :: rest.impersonations⟩
          else ⟨(some s, none), 1, 1, [imp]⟩
        else
          if retry_count < max_retries then
            let rest := fetchGo proxyConfigured username env fuel (retry_count + 1) max_retries
            ⟨rest.result, rest.rotations, rest.attempts + 1, imp :: rest.impersonations⟩
          else ⟨(some s, none), 0, 1, [imp]⟩
      | .err =>
          if retry_count < max_retries then
            let rest := fetchGo proxyConfigured username env fuel (retry_count + 1) max_retries
            ⟨rest.result, rest.rotations, rest.attempts + 1, imp :: rest.impersonations⟩
          else ⟨(none, none), 0, 1, [imp]⟩

/-- Model of `InstagramAPI.fetch_profile(username, retry_count, max_retries)`.
`proxyConfigured` models `self.proxy_url` being set; the check happens on
every attempt, before any network request. Sleeps (backoff, jitter, pacing)
are not observable here and are elided. -/
def fetch_profile (proxyConfigured : Bool) (username : String) (env : Nat → AttemptResult)
    (retry_count max_retries : Nat) : FetchLog :=
  fetchGo proxyConfigured username env (max (max_retries + 1 - retry_count) 1)
    retry_count max_retries

/-! ### `download_profile_picture` -/

/-- Result of one CDN request inside `download_profile_picture`: a status
with the raw content, or a raised exception. -/
inductive ReqResult where
  | ok (status : Nat) (content : List Nat)
  | exn : ReqResult
deriving DecidableEq, Repr

/-- Whether a request was sent directly or through the configured proxy. -/
inductive ReqKind where
  | direct : ReqKind
  | proxied : ReqKind
deriving DecidableEq, Repr

/-- The second loop iteration of `download_profile_picture` (`attempt = 2`):
one direct request; the `attempt == 1` guard is false, so there is no proxy
fallback and any failure falls out of the loop. `k` is the index of the next
request to issue and `kinds` the kinds of the requests already issued. -/
def downloadSecondTry (env : Nat → ReqResult) (k : Nat) (kinds : List ReqKind) :
    Option (List Nat) × List ReqKind :=
  match env k with
  | .ok s c => if s = 200 then (some c, kinds ++ [.direct]) else (none, kinds ++ [.direct])
  | .exn => (none, kinds ++ [.direct])

/-- The proxy fallback inside the first loop iteration of
`download_profile_picture`: reached after a non-200 direct response when a
proxy is configured; sleeps one second, issues the request through the
proxy, returns its content on 200, otherwise lets the second loop iteration
run (a raised proxy request is caught by the same handler and also falls
through to the second iteration). -/
def downloadProxyTry (env : Nat → ReqResult) : Option (List Nat) × List ReqKind :=
  match env 1 with
  | .ok s1 c1 =>
      if s1 = 200 then (some c1, [.direct, .proxied])
      else downloadSecondTry env 2 [.direct, .proxied]
  | .exn => downloadSecondTry env 2 [.direct, .proxied]

/-- Model of `InstagramAPI.download_profile_picture`: a two-iteration loop. The first
iteration issues a direct request; on a non-200 response (and only then,
when a proxy is configured) it delegates to the proxy fallback; a raised
error instead skips the proxy, pauses one second, and lets the second
iteration issue another direct request. Any 200 returns its content; after
the second iteration the function returns `None`. `env n` is the outcome of
the `n`-th request issued; the randomly chosen impersonation only selects
the pooled session and does not affect the control flow modelled here. -/
def download_profile_picture (proxyConfigured : Bool) (env : Nat → ReqResult) :
    Option (List Nat) × List ReqKind :=
  match env 0 with
  | .ok s c =>
      if s = 200 then (some c, [.direct])
      else if proxyConfigured then downloadProxyTry env
      else downloadSecondTry env 1 [.direct]
  | .exn => downloadSecondTry env 1 [.direct]

/-- Request environment whose first request raises and whose later requests
succeed with content `[7]`. -/
def envExnFirst : Nat → ReqResult :=
  fun n => if n = 0 then ReqResult.exn else ReqResult.ok 200 [7]

/-- Request environment: first request answers 404, later ones 200 with
content `[5]`. -/
def envNotFoundFirst : Nat → ReqResult :=
  fun n => if n = 0 then ReqResult.ok 404 [] else ReqResult.ok 200 [5]

/-! ### Monitor service (`monitor_service.py`) -/

/-- The collaborator calls `_handle_account_recovery` makes, in order. -/
inductive RecoveryCall where
  /-- the `_send_with_screenshot` delegation (that helper catches every
  error internally, falling back to a text send, so it never raises). -/
  | sendScreenshotChain : RecoveryCall
  /-- the primary text-only `telegram_client.send_message`. -/
  | sendText : RecoveryCall
  /-- the fallback `send_message` inside the `except` handler. -/
  | sendTextFallback : RecoveryCall
  /-- `data_manager.remove_account(username)`. -/
  | removeAccount : RecoveryCall
  /-- `self.active_monitors.pop(username, None)`. -/
  | popMonitor : RecoveryCall
deriving DecidableEq, Repr

/-- Is this call part of the notification attempt (as opposed to the
removal bookkeeping)? -/
def RecoveryCall.isNotify : RecoveryCall → Bool
  | .sendScreenshotChain => true
  | .sendText => true
  | .sendTextFallback => true
  | .removeAccount => false
  | .popMonitor => false

/-- Trace of `TelegramMonitorService._handle_account_recovery`. The
notification attempt is the screenshot chain when screenshots are enabled
and a picture URL is present, otherwise a text send whose raised error is
caught and answered with one fallback send; the fallback raising
(`fallbackRaises`) is itself caught and only logged, so the trace does not
depend on it. After the attempt the account is removed from the backing
store and popped from the active-task registry. -/
def handle_account_recovery
    (screenshotsEnabled hasPicUrl textSendRaises fallbackRaises : Bool) :
    List RecoveryCall :=
  let notifyCalls :=
    if screenshotsEnabled && hasPicUrl then
      [RecoveryCall.sendScreenshotChain]
    else if textSendRaises then
      [RecoveryCall.sendText, RecoveryCall.sendTextFallback]
    else
      [RecoveryCall.sendText]
  let _ := fallbackRaises
  notifyCalls ++ [RecoveryCall.removeAccount, RecoveryCall.popMonitor]

/-- State of the task registry together with the surrounding asyncio task
environment: `active_monitors` is the registry dict, `created` counts tasks
ever created (`asyncio.create_task`, allocation-ordered identities), and
`cancelled` lists the tasks on which `cancel()` was called. -/
structure TaskState where
  active_monitors : List (String × Nat)
  created : Nat
  cancelled : List Nat
deriving DecidableEq, Repr

/-- Python dict assignment `d[k] = v`: any previous binding of `k` is
replaced. -/
def dictInsert (m : List (String × Nat)) (k : String) (v : Nat) : List (String × Nat) :=
  (k, v) :: m.filter (fun p => p.1 ≠ k)

/-- Model of `TelegramMonitorService.start_monitoring`: create a fresh task running
`monitor_account` and assign it into `active_monitors[username]` — a plain
dict assignment that overwrites any previous entry without cancelling the
task it pointed to. Returns the new state and the created task. -/
def start_monitoring (st : TaskState) (username : String) : TaskState × Nat :=
  let task := st.created
  (⟨dictInsert st.active_monitors username task, st.created + 1, st.cancelled⟩, task)

/-- Model of `TelegramMonitorService.stop_monitoring`: pop the registry entry and
cancel that task if one was registered (the backing-store removal it also
performs is outside this state). -/
def stop_monitoring (st : TaskState) (username : String) : TaskState :=
  match dictLookup st.active_monitors username with
  | some t =>
      ⟨st.active_monitors.filter (fun p => p.1 ≠ username), st.created,
        t :: st.cancelled⟩
  | none => st

/-- A task is live when it was created and never cancelled. -/
def TaskState.live (st : TaskState) (t : Nat) : Prop :=
  t < st.created ∧ t ∉ st.cancelled

/-- Reachable task states: registered and cancelled tasks were created. -/
def TaskStateWF (st : TaskState) : Prop :=
  (∀ p ∈ st.active_monitors, p.2 < st.created) ∧ ∀ t ∈ st.cancelled, t < st.created

/-- Network environment answering 429 to every attempt. -/
def envAll429 : Nat → AttemptResult := fun _ => AttemptResult.ok 429 Body.noUser

/-- Network environment answering 500 with an undecodable body to every attempt. -/
def envServerError : Nat → AttemptResult := fun _ => AttemptResult.ok 500 Body.invalid

/-- Network environment answering 200 with a user record for `ALICE`. -/
def envUserAlice : Nat → AttemptResult := fun _ => AttemptResult.ok 200 (Body.user "ALICE")

/-- Network environment answering 200 with a user record for `ab`. -/
def envUserAb : Nat → AttemptResult := fun _ => AttemptResult.ok 200 (Body.user "ab")

/-! ### Helper lemmas for the `fetch_profile` state machine -/

theorem fetchGo_attempts_le (p : Bool) (u : String) (env : Nat → AttemptResult) :
    ∀ fuel rc mr, (fetchGo p u env fuel rc mr).attempts ≤ fuel := by
  intro fuel
  induction fuel with
  | zero => intro rc mr; simp [fetchGo]
  | succ n ih =>
    intro rc mr
    have hrec := ih (rc + 1) mr
    rcases henv : env rc with ⟨s, b⟩ | _
    · rcases b with _ | _ | w <;>
        (simp only [fetchGo, henv]; split_ifs <;> simp <;> omega)
    · simp only [fetchGo, henv]; split_ifs <;> simp <;> omega

theorem imps_getD_cons (rc i : Nat) (rest : List String)
    (hrest : ∀ j, j < rest.length →
      rest.getD j "" = BROWSER_IMPERSONATIONS.getD ((rc + 1 + j) % BROWSER_IMPERSONATIONS.length) "")
    (h : i < rest.length + 1) :
    (BROWSER_IMPERSONATIONS.getD (rc % BROWSER_IMPERSONATIONS.length) "" :: rest).getD i "" =
      BROWSER_IMPERSONATIONS.getD ((rc + i) % BROWSER_IMPERSONATIONS.length) "" := by
  rcases i with _ | j
  · simp
  · have hj : j < rest.length := by omega
    have := hrest j hj
    simp only [List.getD_cons_succ, this]
    have harith : rc + 1 + j = rc + (j + 1) := by omega
    rw [harith]

theorem fetchGo_imps_getD (p : Bool) (u : String) (env : Nat → AttemptResult) :
    ∀ fuel rc mr i, i < (fetchGo p u env fuel rc mr).impersonations.length →
      (fetchGo p u env fuel rc mr).impersonations.getD i "" =
        BROWSER_IMPERSONATIONS.getD ((rc + i) % BROWSER_IMPERSONATIONS.length) "" := by
  intro fuel
  induction fuel with
  | zero => intro rc mr i h; simp [fetchGo] at h
  | succ n ih =>
    intro rc mr i h
    rcases henv : env rc with ⟨s, b⟩ | _
    · rcases b with _ | _ | w <;>
        (simp only [fetchGo, henv] at h ⊢;
         split_ifs at h ⊢ <;>
           first
           | exact imps_getD_cons rc i _ (fun j hj => ih (rc + 1) mr j hj) (by simpa using h)
           | exact imps_getD_cons rc i [] (fun j hj => absurd hj (by simp)) (by simpa using h)
           | exact absurd h (by simp))
    · simp only [fetchGo, henv] at h ⊢
      split_ifs at h ⊢ <;>
        first
        | exact imps_getD_cons rc i _ (fun j hj => ih (rc + 1) mr j hj) (by simpa using h)
        | exact imps_getD_cons rc i [] (fun j hj => absurd hj (by simp)) (by simpa using h)
        | exact absurd h (by simp)

theorem fetchGo_all429 (u : String) (env : Nat → AttemptResult)
    (henv : ∀ n, ∃ b, env n = AttemptResult.ok 429 b) :
    ∀ fuel rc mr, rc ≤ mr → fuel = mr + 1 - rc →
      (fetchGo true u env fuel rc mr).result = (some 429, none) ∧
      (fetchGo true u env fuel rc mr).rotations = fuel ∧
      (fetchGo true u env fuel rc mr).attempts = fuel := by
  intro fuel
  induction fuel with
  | zero => intro rc mr h hf; omega
  | succ n ih =>
    intro rc mr hrc hf
    obtain ⟨b, hb⟩ := henv rc
    by_cases hlt : rc < mr
    · have hrec := ih (rc + 1) mr hlt (by omega)
      simp only [fetchGo, hb]
      norm_num [hlt]
      exact ⟨hrec.1, by simp [hrec.2.1], by simp [hrec.2.2]⟩
    · have hn : n = 0 := by omega
      subst hn
      simp only [fetchGo, hb]
      norm_num [hlt]

set_option maxHeartbeats 1000000 in
theorem fetchGo_head_imp (u : String) (env : Nat → AttemptResult) (n rc mr : Nat) :
    (fetchGo true u env (n + 1) rc mr).impersonations.headD "" =
      BROWSER_IMPERSONATIONS.getD (rc % BROWSER_IMPERSONATIONS.length) "" := by
  rcases henv : env rc with ⟨s, b⟩ | _
  · rcases b with _ | _ | w <;>
      (simp only [fetchGo, henv]; split_ifs <;> first | rfl | contradiction)
  · simp only [fetchGo, henv]; split_ifs <;> first | rfl | contradiction

theorem fetch_profile_zero (p : Bool) (u : String) (env : Nat → AttemptResult) (mr : Nat) :
    fetch_profile p u env 0 mr = fetchGo p u env (mr + 1) 0 mr := by
  have h : max (mr + 1 - 0) 1 = mr + 1 := by omega
  rw [fetch_profile, h]

theorem fetch_profile_200_user_match (u w : String) (env : Nat → AttemptResult) (mr : Nat)
    (henv : env 0 = AttemptResult.ok 200 (Body.user w)) (hm : lowerStr w = lowerStr u) :
    fetch_profile true u env 0 mr =
      ⟨(some 200, some (Body.user w)), 0, 1, [BROWSER_IMPERSONATIONS.getD 0 ""]⟩ := by
  rw [fetch_profile_zero]
  simp only [fetchGo, henv]
  simp [hm, BROWSER_IMPERSONATIONS]

/-! ### Claims about `fetch_profile` -/

/-- C1 counterexample: with `maxRetries = 1` and every request answered 429,
`rotate_session` is invoked twice, not once: the code rotates on every 429,
including the final attempt that is no longer allowed to retry. -/
theorem fetch_429_rotation_count_counterexample :
    (fetch_profile true "alice" envAll429 0 1).rotations = 2 ∧
    ¬ ((fetch_profile true "alice" envAll429 0 1).rotations = 1) ∧
    (fetch_profile true "alice" envAll429 0 1).result = (some 429, none) := by
  decide

/-- C1 (amended): for every `maxRetries ≥ 1`, if `fetch_profile` starts at
`retry_count = 0` and every issued request returns HTTP 429, the session
manager's `rotate_session` is invoked exactly `maxRetries + 1` times (once
per attempt, the final non-retrying attempt included) and the call returns
`(429, None)`. -/
theorem fetch_profile_all429_rotations (u : String) (env : Nat → AttemptResult) (mr : Nat)
    (hmr : 1 ≤ mr) (henv : ∀ n, ∃ b, env n = AttemptResult.ok 429 b) :
    (fetch_profile true u env 0 mr).result = (some 429, none) ∧
    (fetch_profile true u env 0 mr).rotations = mr + 1 := by
  have h := fetchGo_all429 u env henv (mr + 1) 0 mr (by omega) (by omega)
  rw [fetch_profile_zero]
  exact ⟨h.1, h.2.1⟩

theorem fetch_profile_all429_rotations_witness :
    (1 ≤ 2 ∧ ∀ n : Nat, ∃ b, envAll429 n = AttemptResult.ok 429 b) ∧
    (fetch_profile true "bob" envAll429 0 2).result = (some 429, none) ∧
    (fetch_profile true "bob" envAll429 0 2).rotations = 2 + 1 :=
  ⟨⟨by omega, fun _ => ⟨Body.noUser, rfl⟩⟩,
   fetch_profile_all429_rotations "bob" envAll429 2 (by omega) (fun _ => ⟨Body.noUser, rfl⟩)⟩

/-- C2: for every proxy configuration, username, initial `retry_count`,
`max_retries` and network behaviour, `fetch_profile` terminates (it is a
total function of this embedding) and issues at most `max_retries + 1`
network attempts. -/
theorem fetch_profile_attempts_bounded (p : Bool) (u : String) (env : Nat → AttemptResult)
    (rc mr : Nat) : (fetch_profile p u env rc mr).attempts ≤ mr + 1 :=
  calc (fetch_profile p u env rc mr).attempts
      = (fetchGo p u env (max (mr + 1 - rc) 1) rc mr).attempts := rfl
    _ ≤ max (mr + 1 - rc) 1 := fetchGo_attempts_le p u env (max (mr + 1 - rc) 1) rc mr
    _ ≤ mr + 1 := by omega

/-- C3: in a run starting at `retry_count = 0`, the impersonation profile of
attempt `N` is `BROWSER_IMPERSONATIONS[N mod len(BROWSER_IMPERSONATIONS)]`;
equivalently, the recursive call with `retry_count = N` makes its own attempt
under that same profile. -/
theorem fetch_profile_impersonation (u : String) (env : Nat → AttemptResult) (mr N : Nat)
    (hN : N < (fetch_profile true u env 0 mr).impersonations.length) :
    (fetch_profile true u env 0 mr).impersonations.getD N "" =
      BROWSER_IMPERSONATIONS.getD (N % BROWSER_IMPERSONATIONS.length) "" ∧
    (fetch_profile true u env N mr).impersonations.headD "" =
      BROWSER_IMPERSONATIONS.getD (N % BROWSER_IMPERSONATIONS.length) "" := by
  constructor
  · have h : (fetch_profile true u env 0 mr).impersonations.getD N "" =
        BROWSER_IMPERSONATIONS.getD ((0 + N) % BROWSER_IMPERSONATIONS.length) "" :=
      fetchGo_imps_getD true u env (max (mr + 1 - 0) 1) 0 mr N hN
    simpa using h
  · obtain ⟨k, hk⟩ : ∃ k, max (mr + 1 - N) 1 = k + 1 := ⟨max (mr + 1 - N) 1 - 1, by omega⟩
    rw [fetch_profile, hk]
    exact fetchGo_head_imp u env k N mr

theorem fetch_profile_impersonation_witness :
    2 < (fetch_profile true "alice" envServerError 0 3).impersonations.length ∧
    (fetch_profile true "alice" envServerError 0 3).impersonations.getD 2 "" =
      BROWSER_IMPERSONATIONS.getD (2 % BROWSER_IMPERSONATIONS.length) "" :=
  ⟨by decide, (fetch_profile_impersonation "alice" envServerError 3 2 (by decide)).1⟩

/-- C4: classification of a first-attempt response. A 200 whose decoded body
has a user record matching the requested username case-insensitively returns
`(200, payload)`; a 200 with a mismatching user record returns `(200, None)`;
a 200 with no user record returns `(200, None)`; a 404 returns `(404, None)`.
All four perform exactly one attempt (no retry). -/
theorem fetch_profile_classification (u w : String) (env : Nat → AttemptResult) (mr : Nat)
    (b : Body) :
    (env 0 = AttemptResult.ok 200 (Body.user w) → lowerStr w = lowerStr u →
      fetch_profile true u env 0 mr =
        ⟨(some 200, some (Body.user w)), 0, 1, [BROWSER_IMPERSONATIONS.getD 0 ""]⟩) ∧
    (env 0 = AttemptResult.ok 200 (Body.user w) → ¬ (lowerStr w = lowerStr u) →
      fetch_profile true u env 0 mr =
        ⟨(some 200, none), 0, 1, [BROWSER_IMPERSONATIONS.getD 0 ""]⟩) ∧
    (env 0 = AttemptResult.ok 200 Body.noUser →
      fetch_profile true u env 0 mr =
        ⟨(some 200, none), 0, 1, [BROWSER_IMPERSONATIONS.getD 0 ""]⟩) ∧
    (env 0 = AttemptResult.ok 404 b →
      fetch_profile true u env 0 mr =
        ⟨(some 404, none), 0, 1, [BROWSER_IMPERSONATIONS.getD 0 ""]⟩) := by
  refine ⟨fun henv hm => fetch_profile_200_user_match u w env mr henv hm,
    fun henv hm => ?_, fun henv => ?_, fun henv => ?_⟩
  · rw [fetch_profile_zero]
    simp only [fetchGo, henv]
    simp [hm, BROWSER_IMPERSONATIONS]
  · rw [fetch_profile_zero]
    simp only [fetchGo, henv]
    simp [BROWSER_IMPERSONATIONS]
  · rw [fetch_profile_zero]
    simp only [fetchGo, henv]
    simp [BROWSER_IMPERSONATIONS]

theorem fetch_profile_classification_witness :
    (lowerStr "ALICE" = lowerStr "alice") ∧
    fetch_profile true "alice" envUserAlice 0 3 =
      ⟨(some 200, some (Body.user "ALICE")), 0, 1, [BROWSER_IMPERSONATIONS.getD 0 ""]⟩ :=
  ⟨by decide,
   (fetch_profile_classification "alice" "ALICE" envUserAlice 3 Body.invalid).1 rfl (by decide)⟩

/-- C8: with no forward proxy configured, `fetch_profile` returns
`(None, None)` without issuing any network request, rotating no session,
for every username, retry count and max retries. -/
theorem fetch_profile_no_proxy (u : String) (env : Nat → AttemptResult) (rc mr : Nat) :
    fetch_profile false u env rc mr = ⟨(none, none), 0, 0, []⟩ := by
  obtain ⟨k, hk⟩ : ∃ k, max (mr + 1 - rc) 1 = k + 1 := ⟨max (mr + 1 - rc) 1 - 1, by omega⟩
  rw [fetch_profile, hk]
  simp [fetchGo]

/-! ### Claims about the monitor service -/

/-- C5: in every configuration of `_handle_account_recovery` — screenshot or
text path, the text send raising or not, the fallback raising or not — the
backing-store removal happens exactly once, every call before it belongs to
the notification attempt, and it is followed by the registry pop. -/
theorem recovery_remove_once_after_notify :
    ∀ a b c d : Bool,
      ((handle_account_recovery a b c d).count RecoveryCall.removeAccount = 1) ∧
      ((handle_account_recovery a b c d).drop ((handle_account_recovery a b c d).length - 2) =
        [RecoveryCall.removeAccount, RecoveryCall.popMonitor]) ∧
      (∀ e ∈ (handle_account_recovery a b c d).take ((handle_account_recovery a b c d).length - 2),
        e.isNotify = true) := by
  decide

/-- C9: calling `start_monitoring` twice for the same username makes the
registry reference only the second task; the first task is never cancelled,
so both tasks stay live, and nothing enforces one live task per account. -/
theorem start_monitoring_overwrites (st : TaskState) (u : String) (hwf : TaskStateWF st) :
    dictLookup (start_monitoring (start_monitoring st u).1 u).1.active_monitors u =
      some (start_monitoring (start_monitoring st u).1 u).2 ∧
    (start_monitoring st u).2 ≠ (start_monitoring (start_monitoring st u).1 u).2 ∧
    (∀ p ∈ (start_monitoring (start_monitoring st u).1 u).1.active_monitors,
      p.2 ≠ (start_monitoring st u).2) ∧
    (start_monitoring (start_monitoring st u).1 u).1.live (start_monitoring st u).2 ∧
    (start_monitoring (start_monitoring st u).1 u).1.live
      (start_monitoring (start_monitoring st u).1 u).2 ∧
    (start_monitoring (start_monitoring st u).1 u).1.cancelled = st.cancelled := by
  obtain ⟨hreg, hcan⟩ := hwf
  refine ⟨?_, ?_, ?_, ?_, ?_, ?_⟩
  · simp [start_monitoring, dictInsert, dictLookup]
  · simp only [start_monitoring]
    omega
  · intro p hp
    simp only [start_monitoring, dictInsert, List.mem_cons] at hp
    simp only [start_monitoring]
    rcases hp with rfl | hp
    · exact Nat.succ_ne_self st.created
    · have hp' := List.mem_filter.mp hp
      have hq := hp'.1
      simp only [List.mem_cons] at hq
      rcases hq with rfl | hq
      · simp at hp'
      · have := hreg p (List.mem_of_mem_filter hq)
        omega
  · simp only [start_monitoring, TaskState.live]
    exact ⟨by omega, fun hmem => absurd (hcan _ hmem) (by omega)⟩
  · simp only [start_monitoring, TaskState.live]
    exact ⟨by omega, fun hmem => absurd (hcan _ hmem) (by omega)⟩
  · simp [start_monitoring]

theorem start_monitoring_overwrites_witness :
    TaskStateWF ⟨[], 0, []⟩ ∧
    (dictLookup
        (start_monitoring (start_monitoring ⟨[], 0, []⟩ "u").1 "u").1.active_monitors "u" =
      some (start_monitoring (start_monitoring ⟨[], 0, []⟩ "u").1 "u").2 ∧
     (start_monitoring ⟨[], 0, []⟩ "u").2 ≠
      (start_monitoring (start_monitoring ⟨[], 0, []⟩ "u").1 "u").2 ∧
     (∀ p ∈ (start_monitoring (start_monitoring ⟨[], 0, []⟩ "u").1 "u").1.active_monitors,
       p.2 ≠ (start_monitoring ⟨[], 0, []⟩ "u").2) ∧
     (start_monitoring (start_monitoring ⟨[], 0, []⟩ "u").1 "u").1.live
       (start_monitoring ⟨[], 0, []⟩ "u").2 ∧
     (start_monitoring (start_monitoring ⟨[], 0, []⟩ "u").1 "u").1.live
       (start_monitoring (start_monitoring ⟨[], 0, []⟩ "u").1 "u").2 ∧
     (start_monitoring (start_monitoring ⟨[], 0, []⟩ "u").1 "u").1.cancelled =
       (TaskState.mk [] 0 []).cancelled) :=
  have hwf : TaskStateWF ⟨[], 0, []⟩ :=
    ⟨fun p hp => absurd hp (List.not_mem_nil p), fun t ht => absurd ht (List.not_mem_nil t)⟩
  ⟨hwf, start_monitoring_overwrites ⟨[], 0, []⟩ "u" hwf⟩

/-! ### Claims about `download_profile_picture` -/

theorem downloadSecondTry_kinds (env : Nat → ReqResult) (k : Nat) (kinds : List ReqKind) :
    (downloadSecondTry env k kinds).2 = kinds ++ [ReqKind.direct] := by
  rcases hk : env k with ⟨s, c⟩ | _
  · simp only [downloadSecondTry, hk]
    split_ifs <;> rfl
  · simp only [downloadSecondTry, hk]

theorem downloadSecondTry_none (env : Nat → ReqResult) (k : Nat) (kinds : List ReqKind)
    (h : ∀ cc, ¬ (env k = ReqResult.ok 200 cc)) :
    (downloadSecondTry env k kinds).1 = none := by
  rcases hk : env k with ⟨s, c⟩ | _
  · rcases eq_or_ne s 200 with rfl | hne
    · exact absurd hk (h c)
    · simp [downloadSecondTry, hk, hne]
  · simp only [downloadSecondTry, hk]

theorem downloadSecondTry_some (env : Nat → ReqResult) (k : Nat) (kinds : List ReqKind)
    (cc : List Nat) (h : (downloadSecondTry env k kinds).1 = some cc) :
    env k = ReqResult.ok 200 cc := by
  rcases hk : env k with ⟨s, c⟩ | _ <;> simp only [downloadSecondTry, hk] at h
  split_ifs at h with h200
  · subst h200
    simp only [Option.some.injEq] at h
    rw [h]
  · simp at h

theorem downloadProxyTry_snd_getD (env : Nat → ReqResult) :
    (downloadProxyTry env).2.getD 1 ReqKind.direct = ReqKind.proxied := by
  rcases h1 : env 1 with ⟨s1, c1⟩ | _ <;> simp only [downloadProxyTry, h1]
  · split_ifs <;> simp [downloadSecondTry_kinds]
  · simp [downloadSecondTry_kinds]

theorem downloadProxyTry_200 (env : Nat → ReqResult) (c : List Nat)
    (h1 : env 1 = ReqResult.ok 200 c) :
    downloadProxyTry env = (some c, [ReqKind.direct, ReqKind.proxied]) := by
  simp [downloadProxyTry, h1]

theorem downloadProxyTry_none (env : Nat → ReqResult)
    (h1 : ∀ cc, ¬ (env 1 = ReqResult.ok 200 cc))
    (h2 : ∀ cc, ¬ (env 2 = ReqResult.ok 200 cc)) :
    (downloadProxyTry env).1 = none := by
  rcases hk : env 1 with ⟨s1, c1⟩ | _ <;> simp only [downloadProxyTry, hk]
  · rcases eq_or_ne s1 200 with rfl | hne
    · exact absurd hk (h1 c1)
    · rw [if_neg hne]
      exact downloadSecondTry_none env 2 _ h2
  · exact downloadSecondTry_none env 2 _ h2

theorem downloadProxyTry_some (env : Nat → ReqResult) (cc : List Nat)
    (h : (downloadProxyTry env).1 = some cc) :
    env 1 = ReqResult.ok 200 cc ∨ env 2 = ReqResult.ok 200 cc := by
  rcases hk : env 1 with ⟨s1, c1⟩ | _ <;> simp only [downloadProxyTry, hk] at h
  · split_ifs at h with h200
    · subst h200
      simp only [Option.some.injEq] at h
      exact Or.inl (by rw [h])
    · exact Or.inr (downloadSecondTry_some env 2 _ cc h)
  · exact Or.inr (downloadSecondTry_some env 2 _ cc h)

/-- C7 counterexample: the claim reads that a transport failure on the first
attempt is retried through the configured proxy; in the code the proxy
fallback is reached only on a non-200 response, so after a raised first
request the second request is direct even though a proxy is configured. -/
theorem download_proxy_on_failure_counterexample :
    download_profile_picture true envExnFirst =
      (some [7], [ReqKind.direct, ReqKind.direct]) ∧
    ReqKind.proxied ∉ (download_profile_picture true envExnFirst).2 := by
  decide

/-- C7 (amended): `download_profile_picture` issues a direct request first;
on a non-200 response — and only then, only on the first of the two loop
attempts — it retries through the configured proxy after a fixed one-second
pause, while a raised transport failure skips the proxy and leads to a
second direct attempt; it returns the raw bytes whenever an issued request
returns 200, and returns absent after exhausting its attempts without one. -/
theorem download_picture_retry_policy (env : Nat → ReqResult) (c b : List Nat) (s : Nat)
    (hs : ¬ (s = 200)) :
    (env 0 = ReqResult.ok 200 c →
      download_profile_picture true env = (some c, [ReqKind.direct])) ∧
    (env 0 = ReqResult.ok s b →
      (download_profile_picture true env).2.getD 1 ReqKind.direct = ReqKind.proxied ∧
      (env 1 = ReqResult.ok 200 c →
        download_profile_picture true env = (some c, [ReqKind.direct, ReqKind.proxied]))) ∧
    (env 0 = ReqResult.exn →
      (download_profile_picture true env).2 = [ReqKind.direct, ReqKind.direct]) ∧
    ((∀ k cc, ¬ (env k = ReqResult.ok 200 cc)) →
      (download_profile_picture true env).1 = none) ∧
    (∀ cc, (download_profile_picture true env).1 = some cc →
      ∃ k, k < 3 ∧ env k = ReqResult.ok 200 cc) := by
  refine ⟨fun h0 => ?_, fun h0 => ?_, fun h0 => ?_, fun hnone => ?_, fun cc hsome => ?_⟩
  · simp [download_profile_picture, h0]
  · constructor
    · simp only [download_profile_picture, h0, if_neg hs, if_true]
      exact downloadProxyTry_snd_getD env
    · intro h1
      simp only [download_profile_picture, h0, if_neg hs, if_true]
      exact downloadProxyTry_200 env c h1
  · simp only [download_profile_picture, h0]
    rw [downloadSecondTry_kinds]
    rfl
  · rcases h0 : env 0 with ⟨s0, c0⟩ | _
    · rcases eq_or_ne s0 200 with rfl | hs0
      · exact absurd h0 (hnone 0 c0)
      · simp only [download_profile_picture, h0, if_neg hs0, if_true]
        exact downloadProxyTry_none env (fun k => hnone 1 k) (fun k => hnone 2 k)
    · simp only [download_profile_picture, h0]
      exact downloadSecondTry_none env 1 _ (fun k => hnone 1 k)
  · rcases h0 : env 0 with ⟨s0, c0⟩ | _
    · rcases eq_or_ne s0 200 with rfl | hs0
      · refine ⟨0, by omega, ?_⟩
        simp only [download_profile_picture, h0, if_true, Option.some.injEq] at hsome
        rw [hsome] at h0
        exact h0
      · simp only [download_profile_picture, h0, if_neg hs0, if_true] at hsome
        rcases downloadProxyTry_some env cc hsome with h1 | h2
        · exact ⟨1, by omega, h1⟩
        · exact ⟨2, by omega, h2⟩
    · simp only [download_profile_picture, h0] at hsome
      exact ⟨1, by omega, downloadSecondTry_some env 1 _ cc hsome⟩

theorem download_picture_retry_policy_witness :
    ¬ ((404 : Nat) = 200) ∧
    download_profile_picture true envNotFoundFirst =
      (some [5], [ReqKind.direct, ReqKind.proxied]) :=
  ⟨by decide,
   ((download_picture_retry_policy envNotFoundFirst [5] [] 404 (by decide)).2.1
      (by decide)).2 (by decide)⟩

/-! ### Claims about the device identity generator -/

theorem dictLookup_mem {α : Type} (l : List (String × α)) (u : String) (p : α)
    (h : dictLookup l u = some p) : (u, p) ∈ l := by
  induction l with
  | nil => simp [dictLookup] at h
  | cons kv rest ih =>
    rcases kv with ⟨k, v⟩
    by_cases hk : k = u
    · subst hk
      simp only [dictLookup, if_true, Option.some.injEq] at h
      subst h
      exact List.mem_cons_self _ _
    · simp only [dictLookup, if_neg hk] at h
      exact List.mem_cons_of_mem _ (ih h)

theorem build_device_profile_fst (ops : DerivedOps) (u : String) (c : DeviceCache)
    (h : CacheWF ops c) : (build_device_profile ops u c).1 = deriveProfile ops u := by
  rcases hl : dictLookup c u with _ | p <;> simp only [build_device_profile, hl]
  exact h u p (dictLookup_mem c u p hl)

theorem build_device_profile_wf (ops : DerivedOps) (u : String) (c : DeviceCache)
    (h : CacheWF ops c) : CacheWF ops (build_device_profile ops u c).2 := by
  rcases hl : dictLookup c u with _ | p <;> simp only [build_device_profile, hl]
  · intro v q hvq
    rcases List.mem_cons.mp hvq with heq | hmem
    · injection heq with h1 h2
      subst h1
      exact h2
    · exact h v q hmem
  · exact h

/-- C6: the identity generator is deterministic in the account key alone:
with any well-formed cache state — including the empty cache of a freshly
restarted process — two calls with the same key return bit-identical device
profiles (`device_id`, `android_id`, `mid` and `user_agent` all equal), for
every instantiation of the digest and seeded-PRNG primitives; nothing else
(time, call count, global randomness) enters the derivation. -/
theorem identity_generator_deterministic (ops : DerivedOps) (u : String)
    (c₁ c₂ : DeviceCache) (h₁ : CacheWF ops c₁) (h₂ : CacheWF ops c₂) :
    (build_device_profile ops u c₁).1 = (build_device_profile ops u c₂).1 ∧
    (build_device_profile ops u (build_device_profile ops u c₁).2).1 =
      (build_device_profile ops u c₁).1 := by
  refine ⟨?_, ?_⟩
  · rw [build_device_profile_fst ops u c₁ h₁, build_device_profile_fst ops u c₂ h₂]
  · rw [build_device_profile_fst ops u _ (build_device_profile_wf ops u c₁ h₁),
      build_device_profile_fst ops u c₁ h₁]

theorem identity_generator_deterministic_witness :
    CacheWF sampleOps [] ∧
    (build_device_profile sampleOps "alice" []).1 =
      (build_device_profile sampleOps "alice" []).1 ∧
    (build_device_profile sampleOps "alice" (build_device_profile sampleOps "alice" []).2).1 =
      (build_device_profile sampleOps "alice" []).1 :=
  have hwf : CacheWF sampleOps [] := fun u p h => absurd h (List.not_mem_nil (u, p))
  ⟨hwf, identity_generator_deterministic sampleOps "alice" [] [] hwf hwf⟩

theorem sha256Round_length (st : List Nat) (kw : Nat × Nat) :
    (sha256Round st kw).length = st.length := by
  unfold sha256Round
  split
  · rfl
  · rfl

theorem foldl_sha256Round_length (l : List (Nat × Nat)) (st : List Nat) :
    (l.foldl sha256Round st).length = st.length := by
  induction l generalizing st with
  | nil => rfl
  | cons a l ih =>
    simp only [List.foldl_cons]
    rw [ih, sha256Round_length]

theorem sha256Block_length (hs block : List Nat) (h : hs.length = 8) :
    (sha256Block hs block).length = 8 := by
  simp only [sha256Block]
  rw [List.length_map, List.length_zip, foldl_sha256Round_length, h]
  simp

theorem foldl_sha256Block_length (bs : List (List Nat)) (hs : List Nat) (h : hs.length = 8) :
    (bs.foldl sha256Block hs).length = 8 := by
  induction bs generalizing hs with
  | nil => exact h
  | cons b bs ih =>
    simp only [List.foldl_cons]
    exact ih _ (sha256Block_length _ _ h)

theorem sha256Words_length (msg : List Nat) : (sha256Words msg).length = 8 := by
  simp only [sha256Words]
  exact foldl_sha256Block_length _ _ rfl

theorem hexFlatten_length (ws : List Nat) :
    ((ws.map wordHex).flatten).length = 8 * ws.length := by
  induction ws with
  | nil => rfl
  | cons w ws ih =>
    rw [List.map_cons, List.flatten_cons, List.length_append, ih, List.length_cons]
    have hw : (wordHex w).length = 8 := rfl
    rw [hw]
    ring

theorem sha256HexChars_length (msg : List Nat) : (sha256HexChars msg).length = 64 := by
  simp only [sha256HexChars]
  rw [hexFlatten_length, sha256Words_length]

theorem uuid_decomp (l : List Char) :
    l.take 8 ++ ((l.drop 8).take 4 ++ ((l.drop 12).take 4 ++
      ((l.drop 16).take 4 ++ l.drop 20))) = l := by
  have e20 : (l.drop 16).drop 4 = l.drop 20 := by
    rw [List.drop_drop]
  have e16 : (l.drop 12).drop 4 = l.drop 16 := by
    rw [List.drop_drop]
  have e12 : (l.drop 8).drop 4 = l.drop 12 := by
    rw [List.drop_drop]
  rw [← e20, List.take_append_drop, ← e16, List.take_append_drop, ← e12,
    List.take_append_drop, List.take_append_drop]

theorem uuidOfHex_inj (a b : List Char) (ha : a.length = 32) (hb : b.length = 32)
    (h : uuidOfHex a = uuidOfHex b) : a = b := by
  unfold uuidOfHex at h
  have l1 : (a.take 8).length = (b.take 8).length := by simp [ha, hb]
  obtain ⟨e1, h⟩ := List.append_inj h l1
  injection h with _ h
  have l2 : ((a.drop 8).take 4).length = ((b.drop 8).take 4).length := by simp [ha, hb]
  obtain ⟨e2, h⟩ := List.append_inj h l2
  injection h with _ h
  have l3 : ((a.drop 12).take 4).length = ((b.drop 12).take 4).length := by simp [ha, hb]
  obtain ⟨e3, h⟩ := List.append_inj h l3
  injection h with _ h
  have l4 : ((a.drop 16).take 4).length = ((b.drop 16).take 4).length := by simp [ha, hb]
  obtain ⟨e4, h⟩ := List.append_inj h l4
  injection h with _ e5
  rw [← uuid_decomp a, ← uuid_decomp b, e1, e2, e3, e4, e5]

/-- C10: the device cache and seed derivation are case-sensitive in the
account key. For usernames that differ only in letter case (and whose
SHA-256 seeds differ, as any concrete pair does), the two identities are
derived from distinct SHA-256 seeds, cached under the two distinct verbatim
keys, and carry different device ids — while `fetch_profile` compares the
response username to the requested one case-insensitively, treating the two
spellings as the same account. -/
theorem device_cache_case_sensitive (ops : DerivedOps) (u v : String)
    (env : Nat → AttemptResult) (mr : Nat)
    (hne : ¬ (u = v)) (hci : lowerStr u = lowerStr v)
    (hseed : ¬ ((sha256HexChars (encodeStr u)).take 32 =
      (sha256HexChars (encodeStr v)).take 32))
    (henv : env 0 = AttemptResult.ok 200 (Body.user v)) :
    ¬ (sha256HexChars (encodeStr u) = sha256HexChars (encodeStr v)) ∧
    dictLookup (build_device_profile ops v (build_device_profile ops u []).2).2 u =
      some (deriveProfile ops u) ∧
    dictLookup (build_device_profile ops v (build_device_profile ops u []).2).2 v =
      some (deriveProfile ops v) ∧
    ¬ ((deriveProfile ops u).device_id = (deriveProfile ops v).device_id) ∧
    (fetch_profile true u env 0 mr).result = (some 200, some (Body.user v)) := by
  have ha : ((sha256HexChars (encodeStr u)).take 32).length = 32 := by
    rw [List.length_take, sha256HexChars_length]
    omega
  have hb : ((sha256HexChars (encodeStr v)).take 32).length = 32 := by
    rw [List.length_take, sha256HexChars_length]
    omega
  refine ⟨fun h => hseed (by rw [h]), ?_, ?_, ?_, ?_⟩
  · simp only [build_device_profile, dictLookup, if_neg hne, if_neg (Ne.symm hne), if_true]
  · simp only [build_device_profile, dictLookup, if_neg hne, if_true]
  · intro h
    exact hseed (uuidOfHex_inj _ _ ha hb (congrArg String.data h))
  · rw [fetch_profile_200_user_match u v env mr henv hci.symm]

theorem device_cache_case_sensitive_witness :
    (¬ ("Ab" = "ab")) ∧
    lowerStr "Ab" = lowerStr "ab" ∧
    (¬ ((sha256HexChars (encodeStr "Ab")).take 32 =
      (sha256HexChars (encodeStr "ab")).take 32)) ∧
    (¬ ((deriveProfile sampleOps "Ab").device_id =
      (deriveProfile sampleOps "ab").device_id)) ∧
    (fetch_profile true "Ab" envUserAb 0 3).result = (some 200, some (Body.user "ab")) :=
  have h1 : ¬ ("Ab" = "ab") := by decide
  have h2 : lowerStr "Ab" = lowerStr "ab" := by decide
  have h3 : ¬ ((sha256HexChars (encodeStr "Ab")).take 32 =
      (sha256HexChars (encodeStr "ab")).take 32) := by decide
  ⟨h1, h2, h3,
   (device_cache_case_sensitive sampleOps "Ab" "ab" envUserAb 3 h1 h2 h3 rfl).2.2.2.1,
   (device_cache_case_sensitive sampleOps "Ab" "ab" envUserAb 3 h1 h2 h3 rfl).2.2.2.2⟩

end TgMonitor
